import Mathlib

/-!
A shallow embedding of the authentication and session core of the
PhotoShare FastAPI backend (src/services/auth.py, src/repository/users.py,
src/routes/auth.py, src/routes/users.py, src/schemas/users.py,
src/database/models.py), together with theorems settling the frozen claims
about that core.

Modelling conventions:
* Machine time (`datetime.utcnow()`) is a `Nat` measured in minutes and is
  passed explicitly to every operation that reads the clock.
* A signed JWT string is modelled by its payload (`Token`): the jose codec
  is injective for a fixed signing key, so string equality of issued tokens
  coincides with payload equality.  Tokens with an invalid signature cannot
  be constructed in the model; `jwt.decode`'s expiry check is explicit.
* `uuid.uuid4()` is modelled by an explicit `session_id : String` argument
  supplied by the caller (freshness becomes a hypothesis where needed).
* The relational store is a `Store` of three lists mirroring the `users`,
  `refresh_tokens` and `logout_access_tokens` tables; `db.delete(obj)`
  followed by `commit` removes the first row equal to `obj`.
* The Redis cache is an association list from keys to `User` snapshots;
  `pickle` round-tripping is the identity.  The fixed TTL (`REDIS_EXPIRE`)
  attached by `update_user_in_redis` is not tracked per entry.
-/

namespace PhotoShare

/-- `users.role` is a closed string enum {"admin", "moderator", "standard"}
(constants ROLE_ADMIN / ROLE_MODERATOR / ROLE_STANDARD). -/
inductive Role where
  | admin
  | moderator
  | standard
deriving DecidableEq, Repr

/-- `UserRoleInEnum` (src/schemas/users.py): the input enum for the remote
role-change operation; it has only the `moderator` and `standard` members. -/
inductive RoleIn where
  | moderator
  | standard
deriving DecidableEq, Repr

/-- The role denoted by a `UserRoleInEnum` member. -/
def RoleIn.toRole : RoleIn → Role
  | .moderator => .moderator
  | .standard => .standard

/-- The `users` table row (src/database/models.py `User`). `password` holds
the opaque hash; `created_at` is in model time. -/
structure User where
  id : Nat
  username : String
  email : String
  password : String
  role : Role
  created_at : Nat
  avatar : String
  is_active : Bool
deriving DecidableEq, Repr

/-- Claim payload of a signed JWT (what `jwt.encode` signs and `jwt.decode`
recovers): subject email, optional session id, issued-at, expiry, scope. -/
structure Token where
  sub : String
  session_id : Option String
  iat : Nat
  exp : Nat
  scope : String
deriving DecidableEq, Repr

/-- The `refresh_tokens` table row (src/database/models.py `RefreshToken`);
the `refresh_token` and `session_id` columns carry UNIQUE constraints. -/
structure RefreshTokenRow where
  refresh_token : Token
  user_id : Nat
  session_id : String
  expires_at : Nat
deriving DecidableEq, Repr

/-- The `logout_access_tokens` table row (src/database/models.py
`LogoutAccessToken`). -/
structure LogoutRow where
  logout_access_token : Token
  expires_at : Nat
deriving DecidableEq, Repr

/-- The relational store: the three auth-related tables. -/
structure Store where
  users : List User
  refresh_tokens : List RefreshTokenRow
  logout_tokens : List LogoutRow
deriving DecidableEq, Repr

/-- The Redis cache: keys (`user:<email>`) to pickled `User` snapshots. -/
abbrev Cache := List (String × User)

/-- The typed errors of src/conf/errors.py together with the HTTPException
statuses raised directly in the routes, keyed by status semantics. -/
inductive AuthError where
  | unauthorized (detail : String)
  | forbidden (detail : String)
  | notFound (detail : String)
  | conflict (detail : String)
deriving DecidableEq, Repr

/- Constants from src/conf/constants.py. -/

def ACCESS_TOKEN : String := "access_token"

def REFRESH_TOKEN : String := "refresh_token"

def INVALID_SCOPE : String := "Invalid scope"

def COULD_NOT_VALIDATE_CREDENTIALS : String := "Could not validate credentials"

def LOG_IN_AGAIN : String := "You need to log in again"

def INCORRECT_USERNAME_OR_PASSWORD : String := "Incorrect username or password"

def FORBIDDEN_OPERATION_ON_ADMIN_ACCOUNT : String :=
  "Only admin can perform this operation on admin account."

def FORBIDDEN_FOR_USER : String := "Only admin or moderator can perform this operation."

def FORBIDDEN_FOR_USER_AND_MODERATOR : String := "Only admin can perform this operation."

def BANNED_USER : String := "User is banned."

def TOKEN_NOT_FOUND : String := "Token not found"

def USER_NOT_FOUND : String := "User not found"

def USERNAME_EXISTS : String := "User with this username already exists"

def EMAIL_EXISTS : String := "User with this email already exists"

/-- ACCESS_TOKEN_EXPIRE = 15 (minutes). -/
def ACCESS_TOKEN_EXPIRE : Nat := 15

/-- REFRESH_TOKEN_EXPIRE = 7 (days). -/
def REFRESH_TOKEN_EXPIRE : Nat := 7

/-- REFRESH_TOKEN_EXPIRE converted to model time (minutes). -/
def REFRESH_TOKEN_EXPIRE_MINUTES : Nat := REFRESH_TOKEN_EXPIRE * 24 * 60

/- Small store/cache helpers. -/

/-- `db.delete(obj); db.commit()`: remove the first row equal to `obj`;
when no such row remains (e.g. already deleted by a concurrent request)
SQLAlchemy only warns that the DELETE matched 0 rows, so this is a no-op. -/
def eraseFirst {α : Type} [DecidableEq α] : List α → α → List α
  | [], _ => []
  | x :: xs, a => if x = a then xs else x :: eraseFirst xs a

/-- The Redis key for a user snapshot. -/
def userKey (email : String) : String := "user:" ++ email

/-- `Redis.get`. -/
def cacheGet (c : Cache) (k : String) : Option User :=
  (c.find? (fun p => decide (p.1 = k))).map (fun p => p.2)

/-- `Redis.set` (the TTL set by the accompanying `expire` call is not
tracked per entry). -/
def cacheSet (c : Cache) (k : String) (u : User) : Cache :=
  (k, u) :: c.filter (fun p => decide (p.1 ≠ k))

/-- `Redis.delete`. -/
def cacheDelete (c : Cache) (k : String) : Cache :=
  c.filter (fun p => decide (p.1 ≠ k))

/- Repository operations (src/repository/users.py, PostgresUserRepo). -/

/-- `get_user_by_email`. -/
def get_user_by_email (email : String) (s : Store) : Option User :=
  s.users.find? (fun u => decide (u.email = email))

/-- `get_user_by_id` (`None` stands for the raised `NotFoundError`). -/
def get_user_by_id (user_id : Nat) (s : Store) : Option User :=
  s.users.find? (fun u => decide (u.id = user_id))

/-- `get_user_by_username`. -/
def get_user_by_username (username : String) (s : Store) : Option User :=
  s.users.find? (fun u => decide (u.username = username))

/-- `add_refresh_token`: insert a new RefreshToken row. -/
def add_refresh_token (user_id : Nat) (token : Token) (expiration_date : Nat)
    (session_id : String) (s : Store) : Store :=
  { s with refresh_tokens := s.refresh_tokens ++
      [{ refresh_token := token, user_id := user_id, session_id := session_id,
         expires_at := expiration_date }] }

/-- The SELECT phase of `delete_refresh_token`: the first RefreshToken row
matching (token, user_id). -/
def find_refresh_row (token : Token) (user_id : Nat) (s : Store) :
    Option RefreshTokenRow :=
  s.refresh_tokens.find?
    (fun r => decide (r.refresh_token = token ∧ r.user_id = user_id))

/-- The DELETE/COMMIT phase of `delete_refresh_token`: `db.delete(old_token);
db.commit()` on the row found by the SELECT phase. -/
def commit_delete_row (s : Store) (row : RefreshTokenRow) : Store :=
  { s with refresh_tokens := eraseFirst s.refresh_tokens row }

/-- `delete_refresh_token`: SELECT the row, raise NotFound("Token not found")
if absent, otherwise delete it.  Note the two phases are distinct store
accesses, not one conditional DELETE. -/
def delete_refresh_token (token : Token) (user_id : Nat) (s : Store) :
    Except AuthError Store :=
  match find_refresh_row token user_id s with
  | none => .error (.notFound TOKEN_NOT_FOUND)
  | some row => .ok (commit_delete_row s row)

/-- `logout_user`: find the RefreshToken row for (session_id, user.id) —
NotFound("Token not found") if absent — delete it, and insert a
LogoutAccessToken row for the presented access token whose `expires_at` is
`datetime.utcnow() + timedelta(minutes=ACCESS_TOKEN_EXPIRE)`. -/
def logout_user (token : Token) (session_id : String) (user : User) (now : Nat)
    (s : Store) : Except AuthError (User × Store) :=
  match s.refresh_tokens.find?
      (fun r => decide (r.session_id = session_id ∧ r.user_id = user.id)) with
  | none => .error (.notFound TOKEN_NOT_FOUND)
  | some row =>
    .ok (user,
      { s with
        refresh_tokens := eraseFirst s.refresh_tokens row,
        logout_tokens := s.logout_tokens ++
          [{ logout_access_token := token,
             expires_at := now + ACCESS_TOKEN_EXPIRE }] })

/-- `is_user_logout`: is there a LogoutAccessToken row for this exact
access-token string? -/
def is_user_logout (token : Token) (s : Store) : Bool :=
  s.logout_tokens.any (fun l => decide (l.logout_access_token = token))

/-- `set_user_active_status`: load the target (NotFound if absent), refuse a
moderator acting on an admin account, otherwise write `is_active`. -/
def set_user_active_status (user_id : Nat) (active_status : Bool)
    (current_user : User) (s : Store) : Except AuthError (User × Store) :=
  match get_user_by_id user_id s with
  | none => .error (.notFound USER_NOT_FOUND)
  | some user =>
    if user.role = Role.admin ∧ current_user.role = Role.moderator then
      .error (.forbidden FORBIDDEN_OPERATION_ON_ADMIN_ACCOUNT)
    else
      let user' := { user with is_active := active_status }
      .ok (user',
        { s with users := s.users.map (fun u => if u.id = user_id then user' else u) })

/-- `set_user_role`: load the target (NotFound if absent) and write the role
carried by the `UserRoleIn` body. -/
def set_user_role (user_id : Nat) (role : RoleIn) (s : Store) :
    Except AuthError (User × Store) :=
  match get_user_by_id user_id s with
  | none => .error (.notFound USER_NOT_FOUND)
  | some user =>
    let user' := { user with role := role.toRole }
    .ok (user',
      { s with users := s.users.map (fun u => if u.id = user_id then user' else u) })

/-- `update_user` (repository): overwrite username, email and password of the
row with this id. -/
def update_user_repo (username email password : String) (user_id : Nat)
    (s : Store) : Except AuthError (User × Store) :=
  match get_user_by_id user_id s with
  | none => .error (.notFound USER_NOT_FOUND)
  | some user =>
    let user' := { user with username := username, email := email, password := password }
    .ok (user',
      { s with users := s.users.map (fun u => if u.id = user_id then user' else u) })

/-- `update_user_avatar` (repository). -/
def update_user_avatar_repo (user_id : Nat) (new_avatar_url : String)
    (s : Store) : Except AuthError (User × Store) :=
  match get_user_by_id user_id s with
  | none => .error (.notFound USER_NOT_FOUND)
  | some user =>
    let user' := { user with avatar := new_avatar_url }
    .ok (user',
      { s with users := s.users.map (fun u => if u.id = user_id then user' else u) })

/-- `delete_user` (repository): remove the row (FK cascade removes its
refresh tokens). -/
def delete_user_repo (user_id : Nat) (s : Store) : Except AuthError (User × Store) :=
  match get_user_by_id user_id s with
  | none => .error (.notFound USER_NOT_FOUND)
  | some user =>
    .ok (user,
      { s with
        users := s.users.filter (fun u => decide (u.id ≠ user_id)),
        refresh_tokens := s.refresh_tokens.filter (fun r => decide (r.user_id ≠ user_id)) })

/- Auth service (src/services/auth.py, class Auth). -/

/-- `update_user_in_redis`: store the snapshot under `user:<email>` and set
the fixed REDIS_EXPIRE TTL on the key. -/
def update_user_in_redis (email : String) (user : User) (c : Cache) : Cache :=
  cacheSet c (userKey email) user

/-- `delete_user_from_redis`. -/
def delete_user_from_redis (email : String) (c : Cache) : Cache :=
  cacheDelete c (userKey email)

/-- `create_access_token`: claims {sub, iat = now, exp = now + 15 min,
session_id = fresh uuid4 (here a parameter), scope = "access_token"};
returns the encoded token and the session id. -/
def create_access_token (email : String) (now : Nat) (session_id : String) :
    Token × String :=
  ({ sub := email, session_id := some session_id, iat := now,
     exp := now + ACCESS_TOKEN_EXPIRE, scope := ACCESS_TOKEN }, session_id)

/-- `create_refresh_token`: signs the caller-supplied data ({sub, session_id})
plus {iat = now, exp = now + 7 days, scope = "refresh_token"}; returns the
encoded token and its expiry. -/
def create_refresh_token (email : String) (session_id : String) (now : Nat) :
    Token × Nat :=
  ({ sub := email, session_id := some session_id, iat := now,
     exp := now + REFRESH_TOKEN_EXPIRE_MINUTES, scope := REFRESH_TOKEN },
   now + REFRESH_TOKEN_EXPIRE_MINUTES)

/-- `decode_refresh_token`: `jwt.decode` (JWTError on expiry — mapped to
Unauthorized("Could not validate credentials")), then the scope must be
"refresh_token" (else Unauthorized("Invalid scope")); returns `sub`. -/
def decode_refresh_token (t : Token) (now : Nat) : Except AuthError String :=
  if now ≤ t.exp then
    if t.scope = REFRESH_TOKEN then .ok t.sub
    else .error (.unauthorized INVALID_SCOPE)
  else .error (.unauthorized COULD_NOT_VALIDATE_CREDENTIALS)

/-- `get_session_id_from_token`: decode, require scope "access_token", a
session id, and that `sub` matches the expected user email. -/
def get_session_id_from_token (t : Token) (user_email : String) (now : Nat) :
    Except AuthError String :=
  if now ≤ t.exp then
    if t.scope = ACCESS_TOKEN then
      match t.session_id with
      | none => .error (.unauthorized COULD_NOT_VALIDATE_CREDENTIALS)
      | some sid =>
        if t.sub = user_email then .ok sid
        else .error (.unauthorized COULD_NOT_VALIDATE_CREDENTIALS)
    else .error (.unauthorized COULD_NOT_VALIDATE_CREDENTIALS)
  else .error (.unauthorized COULD_NOT_VALIDATE_CREDENTIALS)

/-- The cache-then-store user lookup inside `get_current_user`: Redis hit
deserializes the snapshot; miss loads from the store by email and, when
found, populates the cache. -/
def resolve_user (email : String) (s : Store) (c : Cache) :
    Option User × Cache :=
  match cacheGet c (userKey email) with
  | some u => (some u, c)
  | none =>
    match get_user_by_email email s with
    | none => (none, c)
    | some u => (some u, update_user_in_redis email u c)

/-- `get_current_user`: `jwt.decode` (JWTError → Unauthorized), scope must be
"access_token" (else Unauthorized), look the user up (cache then store; both
missing → Unauthorized with the email appended), reject blacklisted tokens
with Unauthorized("You need to log in again"), reject banned users with
Forbidden("User is banned."). -/
def get_current_user (t : Token) (now : Nat) (s : Store) (c : Cache) :
    Except AuthError (User × Cache) :=
  if now ≤ t.exp then
    if t.scope = ACCESS_TOKEN then
      match resolve_user t.sub s c with
      | (none, _) =>
        .error (.unauthorized (COULD_NOT_VALIDATE_CREDENTIALS ++ ", email: " ++ t.sub))
      | (some user, c') =>
        if is_user_logout t s then .error (.unauthorized LOG_IN_AGAIN)
        else if user.is_active then .ok (user, c')
        else .error (.forbidden BANNED_USER)
    else .error (.unauthorized COULD_NOT_VALIDATE_CREDENTIALS)
  else .error (.unauthorized COULD_NOT_VALIDATE_CREDENTIALS)

/- Auth routes (src/routes/auth.py). -/

/-- The TokenModel response schema. -/
structure TokenModel where
  access_token : Token
  refresh_token : Token
  token_type : String := "bearer"
deriving DecidableEq, Repr

/-- `__set_tokens`: mint an access token (fresh session id), a refresh token
bound to the same session id, persist the RefreshToken row, return the pair. -/
def set_tokens (user : User) (now : Nat) (fresh_session_id : String) (s : Store) :
    TokenModel × Store :=
  let (access_token, session_id) := create_access_token user.email now fresh_session_id
  let (refresh_tok, expiration_date) := create_refresh_token user.email session_id now
  let s' := add_refresh_token user.id refresh_tok expiration_date session_id s
  ({ access_token := access_token, refresh_token := refresh_tok }, s')

/-- `login`: look the user up by email (401 "Incorrect username or password"
if absent), verify the password (same 401 if wrong), reject banned users
(403 "User is banned."), otherwise issue tokens.  `verify` stands for
`password_handler.verify_password`. -/
def login (email password : String) (verify : String → String → Bool)
    (now : Nat) (fresh_session_id : String) (s : Store) :
    Except AuthError (TokenModel × Store) :=
  match get_user_by_email email s with
  | none => .error (.unauthorized INCORRECT_USERNAME_OR_PASSWORD)
  | some user =>
    if ¬ verify password user.password then
      .error (.unauthorized INCORRECT_USERNAME_OR_PASSWORD)
    else if ¬ user.is_active then .error (.forbidden BANNED_USER)
    else .ok (set_tokens user now fresh_session_id s)

/-- `refresh_token` route: decode the presented refresh token, look the
owner up by the embedded email (NotFound("User not found") if absent),
delete the presented RefreshToken row (NotFound("Token not found") if
absent), then mint and persist a fresh pair. -/
def refresh_route (old_refresh_token : Token) (now : Nat)
    (fresh_session_id : String) (s : Store) :
    Except AuthError (TokenModel × Store) :=
  match decode_refresh_token old_refresh_token now with
  | .error e => .error e
  | .ok email =>
    match get_user_by_email email s with
    | none => .error (.notFound USER_NOT_FOUND)
    | some user =>
      match delete_refresh_token old_refresh_token user.id s with
      | .error e => .error e
      | .ok s' => .ok (set_tokens user now fresh_session_id s')

/-- What the `refresh_token` route does after its SELECT of the old row has
already succeeded: commit the row's deletion (a no-op when a concurrent
request deleted it first) and mint/persist a fresh pair. -/
def refresh_after_found (user : User) (row : RefreshTokenRow) (now : Nat)
    (fresh_session_id : String) (s : Store) : TokenModel × Store :=
  set_tokens user now fresh_session_id (commit_delete_row s row)

/-- `logout` route: `current_user` was resolved by the `get_current_user`
dependency; extract the session id from the presented access token, run
`logout_user`, then drop the cached snapshot. -/
def logout_route (current_user : User) (token : Token) (now : Nat) (s : Store)
    (c : Cache) : Except AuthError (User × Store × Cache) :=
  match get_session_id_from_token token current_user.email now with
  | .error e => .error e
  | .ok session_id =>
    match logout_user token session_id current_user now s with
    | .error e => .error e
    | .ok (user, s') => .ok (user, s', delete_user_from_redis user.email c)

/- User view schemas (src/schemas/users.py) and user routes
(src/routes/users.py). -/

/-- `UserDb`: the full projection. -/
structure UserDb where
  id : Nat
  username : String
  email : String
  role : Role
  created_at : Nat
  avatar : String
  is_active : Bool
deriving DecidableEq, Repr

/-- `UserPublic`: identity fields only — no email, no role, no activity
status, no password. -/
structure UserPublic where
  id : Nat
  username : String
  created_at : Nat
  avatar : String
deriving DecidableEq, Repr

/-- `UserModeratorView`: `UserPublic` plus `is_active` — still no role and
no security fields. -/
structure UserModeratorView where
  id : Nat
  username : String
  created_at : Nat
  avatar : String
  is_active : Bool
deriving DecidableEq, Repr

/-- `UserDb.model_validate`. -/
def toUserDb (u : User) : UserDb :=
  { id := u.id, username := u.username, email := u.email, role := u.role,
    created_at := u.created_at, avatar := u.avatar, is_active := u.is_active }

/-- `UserPublic.model_validate`. -/
def toUserPublic (u : User) : UserPublic :=
  { id := u.id, username := u.username, created_at := u.created_at, avatar := u.avatar }

/-- `UserModeratorView.model_validate`. -/
def toUserModeratorView (u : User) : UserModeratorView :=
  { id := u.id, username := u.username, created_at := u.created_at,
    avatar := u.avatar, is_active := u.is_active }

/-- The response of the get-user-by-id route: one of the three disjoint
projections. -/
inductive UserView where
  | full (v : UserDb)
  | moderatorView (v : UserModeratorView)
  | publicView (v : UserPublic)
deriving DecidableEq, Repr

/-- `get_user` route: load the target by id, then shape the view: full
record for an admin caller or the caller's own record, moderator view for a
moderator, public view otherwise. -/
def get_user_route (user_id : Nat) (current_user : User) (s : Store) :
    Except AuthError UserView :=
  match get_user_by_id user_id s with
  | none => .error (.notFound USER_NOT_FOUND)
  | some user =>
    if current_user.role = Role.admin ∨ current_user.id = user_id then
      .ok (.full (toUserDb user))
    else if current_user.role = Role.moderator then
      .ok (.moderatorView (toUserModeratorView user))
    else .ok (.publicView (toUserPublic user))

/-- `update_user` route: reject username/email collisions with Conflict,
hash the new password, write the row, then refresh the cached snapshot
under the (possibly new) email. -/
def update_user_route (username email password : String) (current_user : User)
    (hash : String → String) (s : Store) (c : Cache) :
    Except AuthError (User × Store × Cache) :=
  if username ≠ current_user.username ∧ (get_user_by_username username s).isSome then
    .error (.conflict USERNAME_EXISTS)
  else if email ≠ current_user.email ∧ (get_user_by_email email s).isSome then
    .error (.conflict EMAIL_EXISTS)
  else
    match update_user_repo username email (hash password) current_user.id s with
    | .error e => .error e
    | .ok (user, s') => .ok (user, s', update_user_in_redis user.email user c)

/-- `update_user_avatar` route: upload the new avatar (the provider is
external; its URL is a parameter), write the row, refresh the cached
snapshot. -/
def update_user_avatar_route (new_avatar_url : String) (current_user : User)
    (s : Store) (c : Cache) : Except AuthError (User × Store × Cache) :=
  match update_user_avatar_repo current_user.id new_avatar_url s with
  | .error e => .error e
  | .ok (user, s') => .ok (user, s', update_user_in_redis user.email user c)

/-- `delete_user` route: allowed for an admin caller or the caller's own
account; deletes the row and drops the cached snapshot. -/
def delete_user_route (user_id : Nat) (current_user : User) (s : Store)
    (c : Cache) : Except AuthError (User × Store × Cache) :=
  if current_user.role = Role.admin ∨ current_user.id = user_id then
    match delete_user_repo user_id s with
    | .error e => .error e
    | .ok (user, s') => .ok (user, s', delete_user_from_redis user.email c)
  else .error (.forbidden FORBIDDEN_FOR_USER_AND_MODERATOR)

/-- `set_active_status` route: only admins and moderators pass the gate
(Forbidden otherwise); the repository refuses a moderator acting on an
admin.  The route performs no cache operation: the Redis snapshot is
returned unchanged. -/
def set_active_status_route (user_id : Nat) (active_status : Bool)
    (current_user : User) (s : Store) (c : Cache) :
    Except AuthError (User × Store × Cache) :=
  if current_user.role ≠ Role.admin ∧ current_user.role ≠ Role.moderator then
    .error (.forbidden FORBIDDEN_FOR_USER)
  else
    match set_user_active_status user_id active_status current_user s with
    | .error e => .error e
    | .ok (user, s') => .ok (user, s', c)

/-- `set_role` route: admin only (Forbidden otherwise); writes the role and
refreshes the cached snapshot. -/
def set_role_route (user_id : Nat) (role : RoleIn) (current_user : User)
    (s : Store) (c : Cache) : Except AuthError (User × Store × Cache) :=
  if current_user.role ≠ Role.admin then
    .error (.forbidden FORBIDDEN_FOR_USER_AND_MODERATOR)
  else
    match set_user_role user_id role s with
    | .error e => .error e
    | .ok (user, s') => .ok (user, s', update_user_in_redis user.email user c)

/- Concrete data used to evaluate the operations on explicit inputs. -/

/-- A stand-in `verify_password` that compares the plain text with the
stored hash directly (the hasher is an external collaborator). -/
def verifyEq : String → String → Bool := fun plain hashed => decide (plain = hashed)

/-- A stand-in `get_password_hash` (the hasher is an external collaborator). -/
def hashId : String → String := fun plain => plain

def alice : User :=
  { id := 1, username := "alice", email := "alice@x.com", password := "HA",
    role := .admin, created_at := 0, avatar := "a.png", is_active := true }

def bob : User :=
  { id := 2, username := "bob", email := "bob@x.com", password := "HB",
    role := .moderator, created_at := 0, avatar := "b.png", is_active := true }

def carol : User :=
  { id := 3, username := "carol", email := "carol@x.com", password := "HC",
    role := .standard, created_at := 0, avatar := "c.png", is_active := true }

def dave : User :=
  { id := 4, username := "dave", email := "dave@x.com", password := "HD",
    role := .standard, created_at := 0, avatar := "d.png", is_active := false }

/-- A store with one admin, one moderator, one standard user and one banned
standard user, and no token rows. -/
def baseStore : Store :=
  { users := [alice, bob, carol, dave], refresh_tokens := [], logout_tokens := [] }

/-- A refresh token of carol's session "s1" (issued at 0, 7-day expiry). -/
def rtok1 : Token :=
  { sub := "carol@x.com", session_id := some "s1", iat := 0,
    exp := REFRESH_TOKEN_EXPIRE_MINUTES, scope := REFRESH_TOKEN }

/-- A refresh token of carol's session "s2". -/
def rtok2 : Token :=
  { sub := "carol@x.com", session_id := some "s2", iat := 0,
    exp := REFRESH_TOKEN_EXPIRE_MINUTES, scope := REFRESH_TOKEN }

def row1 : RefreshTokenRow :=
  { refresh_token := rtok1, user_id := 3, session_id := "s1",
    expires_at := REFRESH_TOKEN_EXPIRE_MINUTES }

def row2 : RefreshTokenRow :=
  { refresh_token := rtok2, user_id := 3, session_id := "s2",
    expires_at := REFRESH_TOKEN_EXPIRE_MINUTES }

/-- `baseStore` with carol holding two live sessions "s1" and "s2". -/
def twoSessionStore : Store := { baseStore with refresh_tokens := [row1, row2] }

/-- Carol's access token for session "s1" (issued at 0, expiry 15). -/
def tok1 : Token :=
  { sub := "carol@x.com", session_id := some "s1", iat := 0,
    exp := ACCESS_TOKEN_EXPIRE, scope := ACCESS_TOKEN }

/-- Carol's access token for session "s2". -/
def tok2 : Token :=
  { sub := "carol@x.com", session_id := some "s2", iat := 0,
    exp := ACCESS_TOKEN_EXPIRE, scope := ACCESS_TOKEN }

/-- Dave's (banned user's) access token. -/
def tokDave : Token :=
  { sub := "dave@x.com", session_id := some "sd", iat := 0,
    exp := ACCESS_TOKEN_EXPIRE, scope := ACCESS_TOKEN }

/-- The store after carol logs session "s1" out at time 5. -/
def loggedOutStore : Store :=
  { twoSessionStore with
    refresh_tokens := [row2],
    logout_tokens := [{ logout_access_token := tok1, expires_at := 20 }] }

/-- The store after carol logs session "s1" out at time 10: the blacklist
row expires at 25, although `tok1` itself expires at 15. -/
def loggedOutStore10 : Store :=
  { twoSessionStore with
    refresh_tokens := [row2],
    logout_tokens := [{ logout_access_token := tok1, expires_at := 25 }] }

/-- Request A's continuation of the refresh race: A's SELECT found `row1`
in `twoSessionStore`; this is the store after A commits. -/
def raceStoreA : Store := (refresh_after_found carol row1 10 "sidA" twoSessionStore).2

/-- The token pair request A returns. -/
def racePairA : TokenModel := (refresh_after_found carol row1 10 "sidA" twoSessionStore).1

/-- Request B's continuation: B's SELECT (run against `twoSessionStore`,
before A committed) also found `row1`; B then commits against the post-A
store. -/
def raceStoreB : Store := (refresh_after_found carol row1 11 "sidB" raceStoreA).2

/-- The token pair request B returns. -/
def racePairB : TokenModel := (refresh_after_found carol row1 11 "sidB" raceStoreA).1

/-- The refresh token `set_tokens` mints for `user` with session id `sid`
at time `now` (the first component of `create_refresh_token`). -/
def mintedRefreshToken (user : User) (sid : String) (now : Nat) : Token :=
  (create_refresh_token user.email sid now).1

/-- The RefreshToken row `set_tokens` persists for `user` with session id
`sid` at time `now`. -/
def mintedRefreshRow (user : User) (sid : String) (now : Nat) : RefreshTokenRow :=
  { refresh_token := mintedRefreshToken user sid now, user_id := user.id,
    session_id := sid, expires_at := now + REFRESH_TOKEN_EXPIRE_MINUTES }

/-- Carol after the admin changes her role to moderator. -/
def carolMod : User := { carol with role := Role.moderator }

/-- `baseStore` after carol's role change. -/
def c10store : Store := { baseStore with users := [alice, bob, carolMod, dave] }

/-- The cache after carol's role change refreshed her snapshot. -/
def c10cache : Cache := update_user_in_redis "carol@x.com" carolMod []

/-- The token pair returned by carol's login at time 0 with session "sid6". -/
def c6pair : TokenModel := (set_tokens carol 0 "sid6" baseStore).1

/-- The store after carol's login at time 0 with session "sid6". -/
def c6store : Store := (set_tokens carol 0 "sid6" baseStore).2

/-- Bob after being banned. -/
def bobBanned : User := { bob with is_active := false }

/-- A cache holding bob's pre-ban snapshot. -/
def c4cache : Cache := [(userKey "bob@x.com", bob)]

/-- `baseStore` after bob is banned. -/
def c4store : Store := { baseStore with users := [alice, bobBanned, carol, dave] }

/-- Carol after updating her profile (hash modelled by `hashId`). -/
def carolUpd : User :=
  { carol with username := "carol2", email := "carol2@x.com", password := "PW" }

/-- `baseStore` after carol's profile update. -/
def c4updStore : Store := { baseStore with users := [alice, bob, carolUpd, dave] }

/-- Carol after updating her avatar. -/
def carolAv : User := { carol with avatar := "new.png" }

/-- `baseStore` after carol's avatar update. -/
def c4avStore : Store := { baseStore with users := [alice, bob, carolAv, dave] }

/-- `baseStore` after the admin deletes dave. -/
def c4delStore : Store := { baseStore with users := [alice, bob, carol] }

/-- Carol after being banned. -/
def carolBanned : User := { carol with is_active := false }

/-- `baseStore` after carol is banned. -/
def c7store : Store := { baseStore with users := [alice, bob, carolBanned, dave] }

/-- Alice after being banned. -/
def aliceBanned : User := { alice with is_active := false }

/-- `baseStore` after alice is banned. -/
def c7adminStore : Store := { baseStore with users := [aliceBanned, bob, carol, dave] }

/- Helper lemmas. -/

deriving instance DecidableEq for Except

/-- Destructing a successful `get_session_id_from_token`. -/
theorem get_session_id_from_token_ok {t : Token} {email : String} {now : Nat}
    {sid : String} (h : get_session_id_from_token t email now = .ok sid) :
    now ≤ t.exp ∧ t.scope = ACCESS_TOKEN ∧ t.session_id = some sid ∧ t.sub = email := by
  unfold get_session_id_from_token at h
  split at h
  · split at h
    · split at h
      · cases h
      · split at h
        · cases h
          simp_all
        · cases h
    · cases h
  · cases h

/-- Destructing a successful `decode_refresh_token`. -/
theorem decode_refresh_token_ok {t : Token} {now : Nat} {email : String}
    (h : decode_refresh_token t now = .ok email) :
    now ≤ t.exp ∧ t.scope = REFRESH_TOKEN ∧ email = t.sub := by
  unfold decode_refresh_token at h
  split at h
  · split at h
    · cases h; simp_all
    · cases h
  · cases h

/-- A key absent from the cache stays absent after any `cacheDelete`. -/
theorem cacheGet_delete_of_none {c : Cache} {k k' : String}
    (h : cacheGet c k = none) : cacheGet (cacheDelete c k') k = none := by
  unfold cacheGet cacheDelete at *
  rw [Option.map_eq_none'] at h ⊢
  rw [List.find?_eq_none] at h ⊢
  intro p hp
  exact h p (List.mem_of_mem_filter hp)

/-- `cacheDelete` removes its own key. -/
theorem cacheGet_delete_self (c : Cache) (k : String) :
    cacheGet (cacheDelete c k) k = none := by
  unfold cacheGet cacheDelete
  rw [Option.map_eq_none', List.find?_eq_none]
  intro p hp h
  have h1 := (List.mem_filter.mp hp).2
  simp at h h1
  exact h1 h

/-- Destructing a successful `logout_user`. -/
theorem logout_user_ok {t : Token} {sid : String} {user u : User} {now : Nat}
    {s s' : Store} (h : logout_user t sid user now s = .ok (u, s')) :
    u = user ∧ s'.users = s.users ∧
    s'.logout_tokens = s.logout_tokens ++
      [{ logout_access_token := t, expires_at := now + ACCESS_TOKEN_EXPIRE }] := by
  unfold logout_user at h
  split at h
  · cases h
  · cases h
    simp_all

/-- Destructing a successful `logout_route`. -/
theorem logout_route_ok {current_user u : User} {t : Token} {now : Nat}
    {s s' : Store} {c c' : Cache}
    (h : logout_route current_user t now s c = .ok (u, s', c')) :
    u = current_user ∧ t.scope = ACCESS_TOKEN ∧ t.sub = current_user.email ∧
    s'.users = s.users ∧
    s'.logout_tokens = s.logout_tokens ++
      [{ logout_access_token := t, expires_at := now + ACCESS_TOKEN_EXPIRE }] ∧
    c' = delete_user_from_redis current_user.email c := by
  unfold logout_route at h
  split at h
  · cases h
  · rename_i sid hsid
    obtain ⟨-, hscope, -, hsub⟩ := get_session_id_from_token_ok hsid
    split at h
    · cases h
    · rename_i u2 s2 hlu
      cases h
      obtain ⟨hu, husers, hlog⟩ := logout_user_ok hlu
      subst hu
      exact ⟨rfl, hscope, hsub, husers, hlog, rfl⟩

/-- Destructing a successful `find_refresh_row`. -/
theorem find_refresh_row_some {t : Token} {uid : Nat} {s : Store}
    {row : RefreshTokenRow} (h : find_refresh_row t uid s = some row) :
    row ∈ s.refresh_tokens ∧ row.refresh_token = t ∧ row.user_id = uid := by
  unfold find_refresh_row at h
  have h1 := List.find?_some h
  have h2 := List.mem_of_find?_eq_some h
  simp only [decide_eq_true_eq] at h1
  exact ⟨h2, h1.1, h1.2⟩

/-- When a list holds at most one element satisfying `p` and one such
element is erased, no element satisfying `p` remains. -/
theorem eraseFirst_all_false {α : Type} [DecidableEq α] (p : α → Bool) :
    ∀ (l : List α) (a : α), a ∈ l → p a = true → l.countP p ≤ 1 →
      ∀ x ∈ eraseFirst l a, p x = false := by
  intro l
  induction l with
  | nil => intro a ha; cases ha
  | cons b bs ih =>
    intro a ha hpa hc x hx
    rw [List.countP_cons] at hc
    by_cases hba : b = a
    · subst hba
      rw [eraseFirst, if_pos rfl] at hx
      rw [hpa] at hc
      simp at hc
      exact hc x hx
    · rw [eraseFirst, if_neg hba] at hx
      have hamem : a ∈ bs := by
        cases ha with
        | head => exact absurd rfl hba
        | tail _ h => exact h
      have hpb : p b = false := by
        by_cases hpb1 : p b = true
        · exfalso
          rw [hpb1] at hc
          simp at hc
          exact absurd hpa (by simp [hc a hamem])
        · simpa using hpb1
      cases hx with
      | head => exact hpb
      | tail _ hx2 =>
        have hcbs : bs.countP p ≤ 1 := le_trans (Nat.le_add_right _ _) hc
        exact ih a hamem hpa hcbs x hx2

/-- Claim C5: login with an unknown email and login with a wrong password
both fail with the same generic Unauthorized "Incorrect username or
password"; a correct password for an inactive account fails with
Forbidden "User is banned.". -/
theorem C5_login_errors (email password : String) (verify : String → String → Bool)
    (now : Nat) (fresh : String) (s : Store) (user : User) :
    (get_user_by_email email s = none →
      login email password verify now fresh s =
        .error (.unauthorized INCORRECT_USERNAME_OR_PASSWORD)) ∧
    (get_user_by_email email s = some user → verify password user.password = false →
      login email password verify now fresh s =
        .error (.unauthorized INCORRECT_USERNAME_OR_PASSWORD)) ∧
    (get_user_by_email email s = some user → verify password user.password = true →
      user.is_active = false →
      login email password verify now fresh s = .error (.forbidden BANNED_USER)) := by
  refine ⟨fun h => ?_, fun h hv => ?_, fun h hv ha => ?_⟩
  · simp [login, h]
  · simp [login, h, hv]
  · simp [login, h, hv, ha]

/-- Witness for C5: the three failure modes evaluated on `baseStore`. -/
theorem C5_login_errors_witness :
    login "absent@x.com" "HB" verifyEq 0 "sid" baseStore =
      .error (.unauthorized INCORRECT_USERNAME_OR_PASSWORD) ∧
    login "bob@x.com" "wrong" verifyEq 0 "sid" baseStore =
      .error (.unauthorized INCORRECT_USERNAME_OR_PASSWORD) ∧
    login "dave@x.com" "HD" verifyEq 0 "sid" baseStore =
      .error (.forbidden BANNED_USER) :=
  ⟨(C5_login_errors "absent@x.com" "HB" verifyEq 0 "sid" baseStore alice).1 (by decide),
   (C5_login_errors "bob@x.com" "wrong" verifyEq 0 "sid" baseStore bob).2.1
     (by decide) (by decide),
   (C5_login_errors "dave@x.com" "HD" verifyEq 0 "sid" baseStore dave).2.2
     (by decide) (by decide) (by decide)⟩

/-- Claim C6: a successful login returns an access token and a refresh token
that carry the same session id, and a RefreshToken row keyed by that session
id exists in the store afterwards. -/
theorem C6_login_session_binding (email password : String)
    (verify : String → String → Bool) (now : Nat) (fresh : String) (s s' : Store)
    (pair : TokenModel)
    (h : login email password verify now fresh s = .ok (pair, s')) :
    pair.access_token.session_id = some fresh ∧
    pair.refresh_token.session_id = some fresh ∧
    s'.refresh_tokens.any (fun r => decide (r.session_id = fresh)) = true := by
  unfold login at h
  split at h
  · cases h
  · rename_i user hget
    split at h
    · cases h
    · split at h
      · cases h
      · injection h with h'
        have hp : pair = (set_tokens user now fresh s).1 := by rw [h']
        have hs : s' = (set_tokens user now fresh s).2 := by rw [h']
        subst hp
        subst hs
        simp [set_tokens, create_access_token, create_refresh_token,
          add_refresh_token, List.any_append]

/-- Witness for C6: carol's login evaluated on `baseStore`. -/
theorem C6_login_session_binding_witness :
    c6pair.access_token.session_id = some "sid6" ∧
    c6pair.refresh_token.session_id = some "sid6" ∧
    c6store.refresh_tokens.any (fun r => decide (r.session_id = "sid6")) = true :=
  C6_login_session_binding "carol@x.com" "HC" verifyEq 0 "sid6" baseStore c6store
    c6pair (by decide)

/-- Claim C8: the get-user view is the full record for an admin caller or
the caller's own record, the moderator view for a moderator, and the public
view for everyone else; the three projections are the disjoint constructors
of `UserView`. -/
theorem C8_view_policy (user_id : Nat) (current_user user : User) (s : Store)
    (h : get_user_by_id user_id s = some user) :
    (current_user.role = Role.admin ∨ current_user.id = user_id →
      get_user_route user_id current_user s = .ok (.full (toUserDb user))) ∧
    (¬(current_user.role = Role.admin ∨ current_user.id = user_id) →
      current_user.role = Role.moderator →
      get_user_route user_id current_user s =
        .ok (.moderatorView (toUserModeratorView user))) ∧
    (¬(current_user.role = Role.admin ∨ current_user.id = user_id) →
      current_user.role ≠ Role.moderator →
      get_user_route user_id current_user s = .ok (.publicView (toUserPublic user))) := by
  refine ⟨fun hc => ?_, fun hc hm => ?_, fun hc hm => ?_⟩
  · simp [get_user_route, h, hc]
  · obtain ⟨h1, h2⟩ := not_or.mp hc
    simp [get_user_route, h, h1, h2, hm]
  · obtain ⟨h1, h2⟩ := not_or.mp hc
    simp [get_user_route, h, h1, h2, hm]

/-- Witness for C8: the three projections evaluated on `baseStore`. -/
theorem C8_view_policy_witness :
    get_user_route 3 alice baseStore = .ok (.full (toUserDb carol)) ∧
    get_user_route 3 bob baseStore = .ok (.moderatorView (toUserModeratorView carol)) ∧
    get_user_route 1 carol baseStore = .ok (.publicView (toUserPublic alice)) :=
  ⟨(C8_view_policy 3 alice carol baseStore (by decide)).1 (Or.inl rfl),
   (C8_view_policy 3 bob carol baseStore (by decide)).2.1 (by decide) rfl,
   (C8_view_policy 1 carol alice baseStore (by decide)).2.2 (by decide) (by decide)⟩

/-- Claim C9: a banned user (`is_active = false`) fails `get_current_user`
with Forbidden "User is banned." even when the presented access token is
unexpired, has the access scope, and is in no blacklist row. -/
theorem C9_banned_user_forbidden (t : Token) (now : Nat) (s : Store) (c c2 : Cache)
    (u : User)
    (hscope : t.scope = ACCESS_TOKEN) (hexp : now ≤ t.exp)
    (hres : resolve_user t.sub s c = (some u, c2))
    (hban : u.is_active = false)
    (hblk : is_user_logout t s = false) :
    get_current_user t now s c = .error (.forbidden BANNED_USER) := by
  simp [get_current_user, hexp, hscope, hres, hblk, hban]

/-- Witness for C9: dave's valid, non-blacklisted token on `baseStore`. -/
theorem C9_banned_user_forbidden_witness :
    get_current_user tokDave 5 baseStore [] = .error (.forbidden BANNED_USER) :=
  C9_banned_user_forbidden tokDave 5 baseStore []
    (update_user_in_redis "dave@x.com" dave []) dave rfl (by decide) (by decide)
    (by decide) (by decide)

/-- Claim C10: the role written by the role-change route is never admin (its
input enum has only moderator and standard), and every admin account in the
store after the operation was already an admin account before it. -/
theorem C10_role_change_never_admin (user_id : Nat) (role : RoleIn)
    (current_user u w : User) (s s' : Store) (c c' : Cache)
    (h : set_role_route user_id role current_user s c = .ok (u, s', c'))
    (hw : w ∈ s'.users) (hwa : w.role = Role.admin) :
    u.role ≠ Role.admin ∧ w ∈ s.users := by
  unfold set_role_route at h
  split at h
  · cases h
  · split at h
    · cases h
    · rename_i user s2 hrepo
      cases h
      unfold set_user_role at hrepo
      split at hrepo
      · cases hrepo
      · rename_i target htarget
        cases hrepo
        constructor
        · cases role <;> simp [RoleIn.toRole]
        · simp only [List.mem_map] at hw
          obtain ⟨v, hv, hfv⟩ := hw
          by_cases hid : v.id = user_id
          · rw [if_pos hid] at hfv
            subst hfv
            exfalso
            cases role <;> simp_all [RoleIn.toRole]
          · rw [if_neg hid] at hfv
            subst hfv
            exact hv

/-- Witness for C10: the admin sets carol's role to moderator; alice remains
the only admin. -/
theorem C10_role_change_never_admin_witness :
    carolMod.role ≠ Role.admin ∧ alice ∈ baseStore.users :=
  C10_role_change_never_admin 3 RoleIn.moderator alice carolMod alice baseStore
    c10store [] c10cache (by decide) (by decide) rfl

/-- Claim C2 (amended): the LogoutAccessToken row inserted by a successful
logout has `expires_at = logout time + ACCESS_TOKEN_EXPIRE`, a fresh
15-minute window, not the expiry copied from the token's own claim; for a
token issued with the standard lifetime this is at or past the token's own
expiry, exceeding it by exactly the time elapsed since issuance. -/
theorem C2_blacklist_expiry (current_user u : User) (t : Token) (now : Nat)
    (s s' : Store) (c c' : Cache)
    (h : logout_route current_user t now s c = .ok (u, s', c')) :
    s'.logout_tokens = s.logout_tokens ++
      [{ logout_access_token := t, expires_at := now + ACCESS_TOKEN_EXPIRE }] ∧
    (t.exp = t.iat + ACCESS_TOKEN_EXPIRE → t.iat ≤ now →
      t.exp ≤ now + ACCESS_TOKEN_EXPIRE ∧
      now + ACCESS_TOKEN_EXPIRE = t.exp + (now - t.iat)) := by
  obtain ⟨-, -, -, -, hlog, -⟩ := logout_route_ok h
  exact ⟨hlog, fun h1 h2 => by omega⟩

/-- Counterexample for C2 as stated: carol's access token was issued at 0
and carries expiry 15, but logging it out at time 10 inserts a blacklist
row expiring at 25 — the expiry is recomputed from the logout time, not
copied from the token's claim, so the blacklist entry outlives the token. -/
theorem C2_blacklist_expiry_counterexample :
    logout_route carol tok1 10 twoSessionStore [] =
      .ok (carol, loggedOutStore10, []) ∧
    loggedOutStore10.logout_tokens.map (fun l => l.expires_at) = [25] ∧
    tok1.exp = 15 ∧ (25 : Nat) ≠ 15 := by decide

/-- Witness for C2's amended theorem: carol's logout at time 10. -/
theorem C2_blacklist_expiry_witness :
    loggedOutStore10.logout_tokens = twoSessionStore.logout_tokens ++
      [{ logout_access_token := tok1, expires_at := 10 + ACCESS_TOKEN_EXPIRE }] ∧
    (tok1.exp ≤ 10 + ACCESS_TOKEN_EXPIRE ∧
     10 + ACCESS_TOKEN_EXPIRE = tok1.exp + (10 - tok1.iat)) :=
  ⟨(C2_blacklist_expiry carol carol tok1 10 twoSessionStore loggedOutStore10 [] []
      (by decide)).1,
   (C2_blacklist_expiry carol carol tok1 10 twoSessionStore loggedOutStore10 [] []
      (by decide)).2 rfl (by decide)⟩

/-- Claim C3: after a successful logout with access token t, resolving the
exact token t fails with Unauthorized "You need to log in again" although t
is still unexpired, while a different still-valid access token of the same
user (a different session) resolves to the same user before and after the
logout. -/
theorem C3_logout_blacklists_exact_token (current_user u u2 w : User)
    (t t2 : Token) (now now2 : Nat) (s s' : Store) (c c' : Cache)
    (hlogout : logout_route current_user t now s c = .ok (u, s', c'))
    (hexp : now2 ≤ t.exp)
    (hfind : get_user_by_email t.sub s = some w)
    (hne : t2 ≠ t)
    (hexp2 : now2 ≤ t2.exp) (hscope2 : t2.scope = ACCESS_TOKEN)
    (hmiss : cacheGet c (userKey t2.sub) = none)
    (hfind2 : get_user_by_email t2.sub s = some u2)
    (hblk2 : is_user_logout t2 s = false)
    (hact2 : u2.is_active = true) :
    get_current_user t now2 s' c' = .error (.unauthorized LOG_IN_AGAIN) ∧
    get_current_user t2 now2 s c = .ok (u2, update_user_in_redis t2.sub u2 c) ∧
    get_current_user t2 now2 s' c' = .ok (u2, update_user_in_redis t2.sub u2 c') := by
  obtain ⟨hu, hscope, hsub, husers, hlog, hc'⟩ := logout_route_ok hlogout
  refine ⟨?_, ?_, ?_⟩
  · have hmiss1 : cacheGet c' (userKey t.sub) = none := by
      rw [hc', hsub]
      exact cacheGet_delete_self c (userKey current_user.email)
    have hfind1 : get_user_by_email t.sub s' = some w := by
      unfold get_user_by_email at hfind ⊢
      rw [husers]
      exact hfind
    have hblk1 : is_user_logout t s' = true := by
      unfold is_user_logout
      rw [hlog]
      simp [List.any_append]
    simp [get_current_user, hexp, hscope, resolve_user, hmiss1, hfind1, hblk1]
  · simp [get_current_user, hexp2, hscope2, resolve_user, hmiss, hfind2, hblk2, hact2]
  · have hmiss2 : cacheGet c' (userKey t2.sub) = none := by
      rw [hc']
      exact cacheGet_delete_of_none hmiss
    have hfind2s : get_user_by_email t2.sub s' = some u2 := by
      unfold get_user_by_email at hfind2 ⊢
      rw [husers]
      exact hfind2
    have hblk2s : is_user_logout t2 s' = false := by
      unfold is_user_logout at hblk2 ⊢
      rw [hlog, List.any_append, hblk2]
      simp
      exact fun hh => hne hh.symm
    simp [get_current_user, hexp2, hscope2, resolve_user, hmiss2, hfind2s, hblk2s, hact2]

/-- Witness for C3: carol logs session "s1" out at time 5; at time 6 the
blacklisted token is rejected while her session-"s2" token still resolves. -/
theorem C3_logout_blacklists_exact_token_witness :
    get_current_user tok1 6 loggedOutStore [] =
      .error (.unauthorized LOG_IN_AGAIN) ∧
    get_current_user tok2 6 twoSessionStore [] =
      .ok (carol, update_user_in_redis "carol@x.com" carol []) ∧
    get_current_user tok2 6 loggedOutStore [] =
      .ok (carol, update_user_in_redis "carol@x.com" carol []) :=
  C3_logout_blacklists_exact_token carol carol carol carol tok1 tok2 5 6
    twoSessionStore loggedOutStore [] [] (by decide) (by decide) (by decide)
    (by decide) (by decide) rfl (by decide) (by decide) (by decide) rfl

/-- Claim C4 (amended): the profile-update, avatar-change and role-change
routes refresh the cached snapshot and the delete route drops it, but the
active-status route performs no cache operation at all and returns the
cache unchanged; after a ban, a reader going through the cache can observe
the stale pre-ban snapshot until the entry's fixed TTL expires. -/
theorem C4_cache_on_user_writes
    (username email password new_avatar_url : String) (hash : String → String)
    (role : RoleIn) (active_status : Bool) (target_id target_id2 target_id3 : Nat)
    (current_user u1 u2 u3 u4 u5 : User) (s s1 s2 s3 s4 s5 : Store)
    (c c1 c2 c3 c4 c5 : Cache) :
    (update_user_route username email password current_user hash s c =
        .ok (u1, s1, c1) → c1 = update_user_in_redis u1.email u1 c) ∧
    (update_user_avatar_route new_avatar_url current_user s c = .ok (u2, s2, c2) →
      c2 = update_user_in_redis u2.email u2 c) ∧
    (set_role_route target_id role current_user s c = .ok (u3, s3, c3) →
      c3 = update_user_in_redis u3.email u3 c) ∧
    (delete_user_route target_id2 current_user s c = .ok (u4, s4, c4) →
      c4 = delete_user_from_redis u4.email c) ∧
    (set_active_status_route target_id3 active_status current_user s c =
        .ok (u5, s5, c5) → c5 = c) := by
  refine ⟨fun h => ?_, fun h => ?_, fun h => ?_, fun h => ?_, fun h => ?_⟩
  · unfold update_user_route at h
    split at h
    · cases h
    · split at h
      · cases h
      · split at h
        · cases h
        · cases h
          rfl
  · unfold update_user_avatar_route at h
    split at h
    · cases h
    · cases h
      rfl
  · unfold set_role_route at h
    split at h
    · cases h
    · split at h
      · cases h
      · cases h
        rfl
  · unfold delete_user_route at h
    split at h
    · split at h
      · cases h
      · cases h
        rfl
    · cases h
  · unfold set_active_status_route at h
    split at h
    · cases h
    · split at h
      · cases h
      · cases h
        rfl

/-- Counterexample for C4 as stated: the admin bans bob while bob's pre-ban
snapshot sits in the cache; the operation succeeds yet returns the cache
unchanged — the `user:bob@x.com` entry is neither updated nor deleted and
still shows `is_active = true` although the store now says false. -/
theorem C4_cache_on_user_writes_counterexample :
    set_active_status_route 2 false alice baseStore c4cache =
      .ok (bobBanned, c4store, c4cache) ∧
    cacheGet c4cache (userKey "bob@x.com") = some bob ∧
    bob.is_active = true ∧ bobBanned.is_active = false := by decide

/-- Witness for C4's amended theorem: the five user-writing routes run on
`baseStore` with bob's snapshot cached. -/
theorem C4_cache_on_user_writes_witness :
    update_user_in_redis "carol2@x.com" carolUpd c4cache =
      update_user_in_redis carolUpd.email carolUpd c4cache ∧
    update_user_in_redis "carol@x.com" carolAv c4cache =
      update_user_in_redis carolAv.email carolAv c4cache ∧
    update_user_in_redis "carol@x.com" carolMod c4cache =
      update_user_in_redis carolMod.email carolMod c4cache ∧
    delete_user_from_redis "dave@x.com" c4cache =
      delete_user_from_redis dave.email c4cache ∧
    c4cache = c4cache :=
  ⟨(C4_cache_on_user_writes "carol2" "carol2@x.com" "PW" "new.png" hashId
      RoleIn.moderator false 3 4 2 carol carolUpd carolAv carolMod dave bobBanned
      baseStore c4updStore c4avStore c10store c4delStore c4store c4cache
      (update_user_in_redis "carol2@x.com" carolUpd c4cache)
      (update_user_in_redis "carol@x.com" carolAv c4cache)
      (update_user_in_redis "carol@x.com" carolMod c4cache)
      (delete_user_from_redis "dave@x.com" c4cache) c4cache).1 (by decide),
   (C4_cache_on_user_writes "carol2" "carol2@x.com" "PW" "new.png" hashId
      RoleIn.moderator false 3 4 2 carol carolUpd carolAv carolMod dave bobBanned
      baseStore c4updStore c4avStore c10store c4delStore c4store c4cache
      (update_user_in_redis "carol2@x.com" carolUpd c4cache)
      (update_user_in_redis "carol@x.com" carolAv c4cache)
      (update_user_in_redis "carol@x.com" carolMod c4cache)
      (delete_user_from_redis "dave@x.com" c4cache) c4cache).2.1 (by decide),
   (C4_cache_on_user_writes "carol2" "carol2@x.com" "PW" "new.png" hashId
      RoleIn.moderator false 3 4 2 alice carolUpd carolAv carolMod dave bobBanned
      baseStore c4updStore c4avStore c10store c4delStore c4store c4cache
      (update_user_in_redis "carol2@x.com" carolUpd c4cache)
      (update_user_in_redis "carol@x.com" carolAv c4cache)
      (update_user_in_redis "carol@x.com" carolMod c4cache)
      (delete_user_from_redis "dave@x.com" c4cache) c4cache).2.2.1 (by decide),
   (C4_cache_on_user_writes "carol2" "carol2@x.com" "PW" "new.png" hashId
      RoleIn.moderator false 3 4 2 alice carolUpd carolAv carolMod dave bobBanned
      baseStore c4updStore c4avStore c10store c4delStore c4store c4cache
      (update_user_in_redis "carol2@x.com" carolUpd c4cache)
      (update_user_in_redis "carol@x.com" carolAv c4cache)
      (update_user_in_redis "carol@x.com" carolMod c4cache)
      (delete_user_from_redis "dave@x.com" c4cache) c4cache).2.2.2.1 (by decide),
   (C4_cache_on_user_writes "carol2" "carol2@x.com" "PW" "new.png" hashId
      RoleIn.moderator false 3 4 2 alice carolUpd carolAv carolMod dave bobBanned
      baseStore c4updStore c4avStore c10store c4delStore c4store c4cache
      (update_user_in_redis "carol2@x.com" carolUpd c4cache)
      (update_user_in_redis "carol@x.com" carolAv c4cache)
      (update_user_in_redis "carol@x.com" carolMod c4cache)
      (delete_user_from_redis "dave@x.com" c4cache) c4cache).2.2.2.2 (by decide)⟩

/-- Claim C7 (amended): deletion is allowed exactly when the caller is
admin or the target is the caller's own account; the active-status change
is allowed exactly when the caller is admin, or a moderator acting on a
non-admin target — a moderator acting on an admin receives Forbidden, an
admin acting on an admin succeeds, and a standard caller (even on their own
account) receives Forbidden. -/
theorem C7_deactivation_delete_policy (user_id : Nat) (b : Bool)
    (caller target : User) (s : Store) (c : Cache)
    (htarget : get_user_by_id user_id s = some target) :
    (caller.role ≠ Role.admin ∧ caller.role ≠ Role.moderator →
      set_active_status_route user_id b caller s c =
        .error (.forbidden FORBIDDEN_FOR_USER)) ∧
    (caller.role = Role.moderator → target.role = Role.admin →
      set_active_status_route user_id b caller s c =
        .error (.forbidden FORBIDDEN_OPERATION_ON_ADMIN_ACCOUNT)) ∧
    (caller.role = Role.admin →
      set_active_status_route user_id b caller s c =
        .ok ({ target with is_active := b },
          { s with users :=
            s.users.map (fun v => if v.id = user_id then { target with is_active := b } else v) },
          c)) ∧
    (caller.role = Role.moderator → target.role ≠ Role.admin →
      set_active_status_route user_id b caller s c =
        .ok ({ target with is_active := b },
          { s with users :=
            s.users.map (fun v => if v.id = user_id then { target with is_active := b } else v) },
          c)) ∧
    (caller.role = Role.admin ∨ caller.id = user_id →
      delete_user_route user_id caller s c =
        .ok (target,
          { s with
            users := s.users.filter (fun v => decide (v.id ≠ user_id)),
            refresh_tokens :=
              s.refresh_tokens.filter (fun r => decide (r.user_id ≠ user_id)) },
          delete_user_from_redis target.email c)) ∧
    (¬(caller.role = Role.admin ∨ caller.id = user_id) →
      delete_user_route user_id caller s c =
        .error (.forbidden FORBIDDEN_FOR_USER_AND_MODERATOR)) := by
  refine ⟨fun hc => ?_, fun hm ha => ?_, fun hadm => ?_, fun hm ha => ?_,
    fun hc => ?_, fun hc => ?_⟩
  · simp [set_active_status_route, hc.1, hc.2]
  · simp [set_active_status_route, set_user_active_status, htarget, hm, ha]
  · simp [set_active_status_route, set_user_active_status, htarget, hadm]
  · simp [set_active_status_route, set_user_active_status, htarget, hm, ha]
  · simp [delete_user_route, delete_user_repo, htarget, hc]
  · simp [delete_user_route, delete_user_repo, hc]

/-- Counterexample for C7 as stated: moderator bob bans standard user carol
and the operation succeeds, although bob is not an admin and carol is not
bob's own account — deactivation is not restricted to "admin or self". -/
theorem C7_deactivation_delete_policy_counterexample :
    set_active_status_route 3 false bob baseStore [] =
      .ok (carolBanned, c7store, []) ∧
    bob.role ≠ Role.admin ∧ bob.id ≠ 3 := by decide

/-- Witness for C7's amended theorem: moderator bob is refused on admin
alice while admin alice may ban herself (an admin acting on an admin). -/
theorem C7_deactivation_delete_policy_witness :
    set_active_status_route 1 false bob baseStore [] =
      .error (.forbidden FORBIDDEN_OPERATION_ON_ADMIN_ACCOUNT) ∧
    set_active_status_route 1 false alice baseStore [] =
      .ok (aliceBanned, c7adminStore, []) :=
  ⟨(C7_deactivation_delete_policy 1 false bob alice baseStore []
      (by decide)).2.1 rfl rfl,
   (C7_deactivation_delete_policy 1 false alice alice baseStore []
      (by decide)).2.2.1 rfl⟩

/-- Claim C1 (amended): sequentially, a persisted refresh token is
redeemable at most once — a successful refresh leaves no row for the
presented token (using the `refresh_token` column's uniqueness invariant
and the freshness of the minted session id), so every later refresh of the
same token fails with NotFound "Token not found".  The concurrent half of
the claim does not hold: the row delete is a SELECT followed by a DELETE,
not one conditional DELETE, so two interleaved redemptions can both
succeed (see the counterexample). -/
theorem C1_refresh_single_use (old : Token) (now1 now2 : Nat)
    (fresh1 fresh2 : String) (s s' : Store) (pair : TokenModel)
    (h1 : refresh_route old now1 fresh1 s = .ok (pair, s'))
    (huniq : s.refresh_tokens.countP (fun r => decide (r.refresh_token = old)) ≤ 1)
    (hfresh : old.session_id ≠ some fresh1)
    (hexp2 : now2 ≤ old.exp) :
    s'.refresh_tokens.countP (fun r => decide (r.refresh_token = old)) = 0 ∧
    refresh_route old now2 fresh2 s' = .error (.notFound TOKEN_NOT_FOUND) := by
  unfold refresh_route at h1
  split at h1
  · cases h1
  · rename_i email hdec
    obtain ⟨hexp1, hscope, hemail⟩ := decode_refresh_token_ok hdec
    split at h1
    · cases h1
    · rename_i user hget
      split at h1
      · cases h1
      · rename_i s2 hdel
        injection h1 with h1'
        have hs' : s' = (set_tokens user now1 fresh1 s2).2 := by rw [h1']
        unfold delete_refresh_token at hdel
        split at hdel
        · cases hdel
        · rename_i row hrow
          injection hdel with hdel'
          obtain ⟨hrowmem, hrtok, hruid⟩ := find_refresh_row_some hrow
          have herase := eraseFirst_all_false
            (fun r => decide (r.refresh_token = old)) s.refresh_tokens row
            hrowmem (by simp [hrtok]) huniq
          have hnew : mintedRefreshToken user fresh1 now1 ≠ old := by
            intro hh
            exact hfresh (by rw [← hh]; rfl)
          have hrt : s'.refresh_tokens =
              eraseFirst s.refresh_tokens row ++ [mintedRefreshRow user fresh1 now1] := by
            rw [hs', ← hdel']
            rfl
          have hcount : s'.refresh_tokens.countP
              (fun r => decide (r.refresh_token = old)) = 0 := by
            rw [hrt, List.countP_append]
            have e1 : (eraseFirst s.refresh_tokens row).countP
                (fun r => decide (r.refresh_token = old)) = 0 :=
              List.countP_eq_zero.mpr (fun a ha => by simp [herase a ha])
            rw [e1]
            simp [mintedRefreshRow, hnew]
          refine ⟨hcount, ?_⟩
          have hdec2 : decode_refresh_token old now2 = .ok old.sub := by
            unfold decode_refresh_token
            rw [if_pos hexp2, if_pos hscope]
          have husers : s'.users = s.users := by
            rw [hs', ← hdel']
            rfl
          have hget2 : get_user_by_email old.sub s' = some user := by
            unfold get_user_by_email at hget ⊢
            rw [husers, ← hemail]
            exact hget
          have hnone : find_refresh_row old user.id s' = none := by
            unfold find_refresh_row
            rw [hrt, List.find?_eq_none]
            intro x hx
            rcases List.mem_append.mp hx with hx1 | hx2
            · have h5 := herase x hx1
              simp only [decide_eq_false_iff_not] at h5
              simp only [decide_eq_true_eq]
              exact fun hh => h5 hh.1
            · simp only [List.mem_singleton] at hx2
              subst hx2
              simp only [decide_eq_true_eq]
              exact fun hh => hnew hh.1
          simp [refresh_route, hdec2, hget2, delete_refresh_token, hnone]

/-- Counterexample for C1 as stated (the concurrent clause): both requests
redeem carol's refresh token `rtok1`; both SELECT phases run against the
initial store and find the row, request A commits first, and request B's
continuation — whose DELETE now matches nothing and is only a warning in
SQLAlchemy — still mints and persists a second valid pair instead of
returning NotFound. -/
theorem C1_refresh_single_use_counterexample :
    decode_refresh_token rtok1 10 = .ok "carol@x.com" ∧
    decode_refresh_token rtok1 11 = .ok "carol@x.com" ∧
    get_user_by_email "carol@x.com" twoSessionStore = some carol ∧
    find_refresh_row rtok1 3 twoSessionStore = some row1 ∧
    eraseFirst raceStoreA.refresh_tokens row1 = raceStoreA.refresh_tokens ∧
    racePairB ≠ racePairA ∧
    racePairB.refresh_token.scope = REFRESH_TOKEN ∧
    raceStoreB.refresh_tokens.any (fun r => decide (r.session_id = "sidA")) = true ∧
    raceStoreB.refresh_tokens.any (fun r => decide (r.session_id = "sidB")) = true := by
  decide

/-- Witness for C1's amended theorem: after carol's token is redeemed once,
a second sequential redemption of the same token fails with NotFound. -/
theorem C1_refresh_single_use_witness :
    raceStoreA.refresh_tokens.countP (fun r => decide (r.refresh_token = rtok1)) = 0 ∧
    refresh_route rtok1 11 "sidB" raceStoreA = .error (.notFound TOKEN_NOT_FOUND) :=
  C1_refresh_single_use rtok1 10 11 "sidA" "sidB" twoSessionStore raceStoreA
    racePairA (by decide) (by decide) (by decide) (by decide)

end PhotoShare
